import Mathlib

/-!
Shallow embedding of the Renewable-Energy-Forecasting-System pipeline
(phases 1-4) and verification of its specification claims.

Conventions:
* An hourly weather column is a `List (Option ℚ)`: position `i` is hour `i`
  of the strict hourly grid produced by `sort_index().asfreq("H")`;
  `none` is a missing value (NaN).
* Machine floats are modelled by exact rationals `ℚ` (reals `ℝ` where the
  source takes a square root).
-/

namespace Phase2

/-- Executable `max` on `ℚ` (the lattice `⊔` does not kernel-reduce). -/
def maxQ (a b : ℚ) : ℚ := if a ≤ b then b else a

/-- Executable `min` on `ℚ`. -/
def minQ (a b : ℚ) : ℚ := if a ≤ b then a else b

/-- `Series.clip(lo, hi)` for scalars: `min (max x lo) hi`. -/
def clip (lo hi x : ℚ) : ℚ := minQ (maxQ x lo) hi

/-- Forward fill (`DataFrame.ffill`): each missing entry takes the most
recent earlier non-missing value; leading missing entries stay missing.
`last` is the value carried in from before the list. -/
def ffillFrom (last : Option ℚ) : List (Option ℚ) → List (Option ℚ)
  | [] => []
  | none :: rest => last :: ffillFrom last rest
  | some x :: rest => some x :: ffillFrom (some x) rest

def ffill (s : List (Option ℚ)) : List (Option ℚ) := ffillFrom none s

/-- `df.isna().rolling(3).sum().fillna(0)` at position `i`: for `i < 2` the
rolling window is incomplete, pandas yields NaN and `fillna` turns it into
`0`; otherwise the number of missing entries among positions
`i-2, i-1, i`. -/
def isnaRoll3 (s : List (Option ℚ)) (i : ℕ) : ℕ :=
  if i < 2 then 0
  else ((s.drop (i - 2)).take 3).countP (fun x => x.isNone)

/-- The mask `df.isna().rolling(3).sum().fillna(0) <= 3` from
`clean_hourly`. -/
def smallGap (s : List (Option ℚ)) (i : ℕ) : Bool :=
  isnaRoll3 s i ≤ 3

/-- `df.ffill().where(small_gap)`: keep the forward-filled value where the
mask is true, put NaN where it is false. -/
def ffillWhere (s : List (Option ℚ)) : List (Option ℚ) :=
  (ffill s).mapIdx (fun i v => if smallGap s i then v else none)

/-- The non-missing values of a column (pandas reductions skip NaN). -/
def vals (s : List (Option ℚ)) : List ℚ := s.filterMap id

/-- Insert into a sorted list (ascending). -/
def insertSorted (x : ℚ) : List ℚ → List ℚ
  | [] => [x]
  | y :: ys => if x ≤ y then x :: y :: ys else y :: insertSorted x ys

/-- Insertion sort, ascending. -/
def sortQ : List ℚ → List ℚ
  | [] => []
  | x :: xs => insertSorted x (sortQ xs)

/-- Executable floor of a non-negative rational, as a natural number
(the `⌊⌋` of Mathlib's `FloorRing` does not kernel-reduce). -/
def floorNat (h : ℚ) : ℕ := h.num.toNat / h.den

/-- `Series.quantile(q)` with the default linear interpolation over the
non-missing values `vs` (assumed non-empty): position `h = q * (n - 1)`,
linearly interpolated between the two neighbouring order statistics. -/
def quantileQ (q : ℚ) (vs : List ℚ) : ℚ :=
  let sorted := sortQ vs
  let n := sorted.length
  let h : ℚ := q * ((n : ℚ) - 1)
  let i : ℕ := floorNat h
  let lo := sorted.getD i 0
  let hi := sorted.getD (i + 1) lo
  lo + (h - (i : ℚ)) * (hi - lo)

/-- The winsorization step of `clean_hourly`: clip the column to its
1st/99th percentile.  When the column has no valid value the quantiles are
NaN and pandas `clip` leaves the column unchanged. -/
def winsorize (s : List (Option ℚ)) : List (Option ℚ) :=
  if vals s = [] then s
  else
    let q1 := quantileQ (1/100) (vals s)
    let q99 := quantileQ (99/100) (vals s)
    s.map (Option.map (clip q1 q99))

/-- `clean_hourly`, restricted to the irradiance column `ghi`:
gap handling, then `clip(lower=0)`, then winsorize.
(The `sort_index().asfreq("H")` step is the identity on our model, whose
index is the strict hourly grid.) -/
def cleanGhi (s : List (Option ℚ)) : List (Option ℚ) :=
  winsorize ((ffillWhere s).map (Option.map (fun x => maxQ x 0)))

/-- `clean_hourly`, restricted to a meteorological column (`t2m_c` or
`ws10_ms`): gap handling then winsorize (no non-negativity clip). -/
def cleanMet (s : List (Option ℚ)) : List (Option ℚ) :=
  winsorize (ffillWhere s)

end Phase2

namespace Phase3

/-- `SYSTEM_KW_DC = 10.0`. -/
def SYSTEM_KW_DC : ℚ := 10

/-- `PVWATTS_INV_EFF = 0.96`. -/
def PVWATTS_INV_EFF : ℚ := 96/100

/-- `pdc0_w = SYSTEM_KW_DC * 1000.0`. -/
def pdc0_w : ℚ := SYSTEM_KW_DC * 1000

/-- `np.clip(x, lo, hi)`. -/
def npClip (x lo hi : ℚ) : ℚ := Phase2.minQ (Phase2.maxQ x lo) hi

/-- The fallback branch of `_pvwatts_ac_robust`:
`pac = eta_inv_nom * pdc; pac = np.clip(pac, 0.0, eta_inv_nom * pdc0_w)`,
at the constants the pipeline passes (`pdc0_w = 10000`, `eta = 0.96`). -/
def fallbackAc (pdc : ℚ) : ℚ :=
  npClip (PVWATTS_INV_EFF * pdc) 0 (PVWATTS_INV_EFF * pdc0_w)

/-- Modelled from the spec: the preferred branch of `_pvwatts_ac_robust`,
`pvlib.inverter.pvwatts(pdc, pdc0=pdc0_w, eta_inv_nom=0.96)`, is not part
of this repository (pvlib is an external dependency).  It is the NREL
PVWatts V5 part-load inverter model named by the spec, with reference
efficiency `eta_inv_ref = 0.9637`:
`zeta = pdc/pdc0`, `eta = eta_inv_nom/eta_inv_ref *
(-0.0162*zeta - 0.0059/zeta + 0.9858)`, and
`pac = np.maximum(0, np.minimum(eta_inv_nom*pdc0, eta*pdc))`. -/
def pvwattsInverter (pdc : ℚ) : ℚ :=
  let etaRef : ℚ := 9637/10000
  let pac0 : ℚ := PVWATTS_INV_EFF * pdc0_w
  let zeta : ℚ := pdc / pdc0_w
  let eta : ℚ :=
    PVWATTS_INV_EFF / etaRef * (-(162/10000) * zeta - (59/10000) / zeta + 9858/10000)
  Phase2.maxQ 0 (Phase2.minQ pac0 (eta * pdc))

/-- `pac_w.resample("D").sum(min_count=20) / 1000.0` for the hourly AC
power samples (`none` = NaN) of one local calendar day: the sum of the
valid samples when at least 20 are valid, NaN otherwise. -/
def dailyKwh (hours : List (Option ℚ)) : Option ℚ :=
  if 20 ≤ (hours.filterMap id).length
  then some ((hours.filterMap id).sum / 1000) else none

/-- The daily-energy table written by phase 3 `main` for one zone: one
candidate row per local calendar day, then `dropna(subset=["energy_kwh"])`
removes the days whose resampled sum is NaN. -/
def dailyEnergyRows (days : List (ℕ × List (Option ℚ))) : List (ℕ × ℚ) :=
  days.filterMap (fun p => (dailyKwh p.2).map (fun v => (p.1, v)))

end Phase3

namespace Phase4

/-- `SYSTEM_KW = 10.0` (phase 4). -/
def SYSTEM_KW : ℚ := 10

/-- The `TH_FULL` thresholds and `FULL_YEAR_DAY_MIN`. -/
def TH_min_days : ℕ := 330
def TH_max_zero_days : ℕ := 40
def TH_cap_factor_lo : ℚ := 12/100
def TH_cap_factor_hi : ℚ := 28/100
def TH_mean_kwh_lo : ℚ := 5
def TH_mean_kwh_hi : ℚ := 60
def FULL_YEAR_DAY_MIN : ℕ := 360

/-- One row of the per-zone-year `stats` table (the fields the QA rules
read). -/
structure ZoneYearStat where
  year : ℤ
  days : ℕ
  zero_days : ℕ
  cap_factor : ℚ
  mean_kwh : ℚ
deriving DecidableEq

/-- The `agg` applied to one zone-year group `g` of daily-energy rows
`(date, energy_kwh)`: `days = g["date"].nunique()`,
`zero_days = (g["energy_kwh"] <= 0.01).sum()`,
`cap_factor = g["energy_kwh"].sum() / (SYSTEM_KW * 24 * 365)`,
`mean_kwh = g["energy_kwh"].mean()`. -/
def aggStats (year : ℤ) (g : List (ℕ × ℚ)) : ZoneYearStat where
  year := year
  days := (g.map Prod.fst).dedup.length
  zero_days := g.countP (fun r => r.2 ≤ 1/100)
  cap_factor := (g.map Prod.snd).sum / (SYSTEM_KW * 24 * 365)
  mean_kwh := (g.map Prod.snd).sum / (g.length : ℚ)

/-- `s["ok_days"] = s["days"] >= TH_FULL["min_days"]`. -/
def ok_days (st : ZoneYearStat) : Bool := TH_min_days ≤ st.days

/-- `s["ok_zero_days"] = s["zero_days"] <= TH_FULL["max_zero_days"]`. -/
def ok_zero_days (st : ZoneYearStat) : Bool := st.zero_days ≤ TH_max_zero_days

/-- `s["ok_cf"] = s["cap_factor"].between(lo, hi)` (inclusive). -/
def ok_cf (st : ZoneYearStat) : Bool :=
  TH_cap_factor_lo ≤ st.cap_factor ∧ st.cap_factor ≤ TH_cap_factor_hi

/-- `s["ok_mean"] = s["mean_kwh"].between(lo, hi)` (inclusive). -/
def ok_mean (st : ZoneYearStat) : Bool :=
  TH_mean_kwh_lo ≤ st.mean_kwh ∧ st.mean_kwh ≤ TH_mean_kwh_hi

/-- `s["qa_pass_year"] = s[["ok_days","ok_zero_days","ok_cf","ok_mean"]].all(axis=1)`. -/
def qa_pass_year (st : ZoneYearStat) : Bool :=
  ok_days st && ok_zero_days st && ok_cf st && ok_mean st

/-- `s["is_full_year"] = s["days"] >= FULL_YEAR_DAY_MIN`. -/
def is_full_year (st : ZoneYearStat) : Bool := FULL_YEAR_DAY_MIN ≤ st.days

/-- `n_full_years = ("is_full_year", "sum")` for one zone's rows. -/
def n_full_years (rows : List ZoneYearStat) : ℕ := rows.countP is_full_year

/-- `n_full_pass`: the sum of `qa_pass_year` over `full = s[s["is_full_year"]]`,
with the `fillna(0)` for zones absent from `full`. -/
def n_full_pass (rows : List ZoneYearStat) : ℕ :=
  (rows.filter is_full_year).countP qa_pass_year

/-- `zone_summary["qa_pass_zone"] = zone_summary["n_full_pass"] > 0`. -/
def qa_pass_zone (rows : List ZoneYearStat) : Bool := 0 < n_full_pass rows

/-- The three zone-level QA outcomes phase 4 reports: `qa_pass_zone` is the
pass flag, and zones with `n_full_years == 0` are reported separately
("they neither pass nor fail"). -/
inductive ZoneQAClass where
  | pass
  | fail
  | undetermined
deriving DecidableEq

/-- The zone-level classification of phase 4 `main`: a zone with no full
year is in the `n_full_years == 0` group ("neither pass nor fail"),
otherwise its `qa_pass_zone` flag decides pass vs fail. -/
def zoneClass (rows : List ZoneYearStat) : ZoneQAClass :=
  if n_full_years rows = 0 then ZoneQAClass.undetermined
  else if qa_pass_zone rows then ZoneQAClass.pass
  else ZoneQAClass.fail

end Phase4

namespace Features

/-- The QA inputs `get_good_zones` may find on disk: the zone-level summary
CSV (`ZoneID`, `qa_pass_zone`) and the per-zone-year detail parquet
(`ZoneID`, `days`, pass flag); `none` = the file does not exist. -/
structure QAFiles where
  summary : Option (List (String × Bool))
  peryear : Option (List (String × ℕ × Bool))
deriving DecidableEq

/-- `get_good_zones`: prefer the summary CSV (zones whose `qa_pass_zone`
is true); fall back to the per-year table (zones with any row having
`days >= 360` and a true pass flag); with no QA file, the empty set. -/
def getGoodZones (qa : QAFiles) : List String :=
  match qa.summary with
  | some tbl => (tbl.filter (fun r => r.2)).map Prod.fst
  | none =>
    match qa.peryear with
    | some rows =>
      ((rows.filter (fun r => 360 ≤ r.2.1 && r.2.2)).map Prod.fst).dedup
    | none => []

/-- `set(de["ZoneID"].unique())` over the daily-energy rows
`(ZoneID, date, energy_kwh)`. -/
def allZones (daily : List (String × ℕ × ℚ)) : List String :=
  (daily.map Prod.fst).dedup

/-- `main`: the warning `proceeding with ALL zones` is printed exactly when
`len(good) == 0`. -/
def usedFallback (qa : QAFiles) : Bool := getGoodZones qa = []

/-- `main`: `good` after the possible substitution of all zones. -/
def zonesUsed (daily : List (String × ℕ × ℚ)) (qa : QAFiles) : List String :=
  if getGoodZones qa = [] then allZones daily else getGoodZones qa

/-- `de = de[de["ZoneID"].isin(good)]`: the rows the feature builder
consumes. -/
def consumedRows (daily : List (String × ℕ × ℚ)) (qa : QAFiles) :
    List (String × ℕ × ℚ) :=
  daily.filter (fun r => r.1 ∈ zonesUsed daily qa)

/-- The positional window of `rolling(7, min_periods=3)` at row `i`:
the last at-most-7 rows ending at row `i`. -/
def window7 (s : List ℝ) (i : ℕ) : List ℝ := (s.take (i + 1)).drop (i + 1 - 7)

/-- The number of observations in the rolling window at row `i`. -/
def obs7 (s : List ℝ) (i : ℕ) : ℕ := (window7 s i).length

/-- `s.rolling(7, min_periods=3).mean()` at row `i` (`none` = NaN). -/
noncomputable def roll7_mean (s : List ℝ) (i : ℕ) : Option ℝ :=
  if obs7 s i < 3 then none
  else some ((window7 s i).sum / (obs7 s i : ℝ))

/-- The population variance of the rolling window at row `i`
(what `.std(ddof=0)` takes the square root of). -/
noncomputable def roll7_var (s : List ℝ) (i : ℕ) : Option ℝ :=
  if obs7 s i < 3 then none
  else some (((window7 s i).map
      (fun x => (x - (window7 s i).sum / (obs7 s i : ℝ)) ^ 2)).sum / (obs7 s i : ℝ))

/-- `s.rolling(7, min_periods=3).std(ddof=0)` at row `i`. -/
noncomputable def roll7_std (s : List ℝ) (i : ℕ) : Option ℝ :=
  (roll7_var s i).map Real.sqrt

/-- `roll7_z = (s - roll7_mean) / roll7_std.replace(0, np.nan)` at row `i`:
NaN when the mean or the std is NaN, and when the std is zero (which
`replace(0, nan)` turns into NaN before the division). -/
noncomputable def roll7_z (s : List ℝ) (i : ℕ) : Option ℝ :=
  match roll7_mean s i, roll7_std s i with
  | some m, some sd => if sd = 0 then none else some ((s.getD i 0 - m) / sd)
  | _, _ => none

end Features

namespace Phase1

/-- `to_octant` from `add_octant_labels`, on the centroid angle in degrees
(`np.degrees(np.arctan2(dy, dx))`, which lies in `[-180, 180]`;
`22.5 = 45/2` and so on). -/
def to_octant (a : ℚ) : String :=
  if -(45/2) ≤ a ∧ a < 45/2 then "E"
  else if 45/2 ≤ a ∧ a < 135/2 then "NE"
  else if 135/2 ≤ a ∧ a < 225/2 then "N"
  else if 225/2 ≤ a ∧ a < 315/2 then "NW"
  else if 315/2 ≤ a ∨ a < -(315/2) then "W"
  else if -(315/2) ≤ a ∧ a < -(225/2) then "SW"
  else if -(225/2) ≤ a ∧ a < -(135/2) then "S"
  else if -(135/2) ≤ a ∧ a < -(45/2) then "SE"
  else "NA"

/-- `add_octant_labels`: one `Region8` label per zone, computed from that
zone's centroid angle. -/
def addOctantLabels (angles : List ℚ) : List String := angles.map to_octant

end Phase1

/-- A QA state where the summary CSV exists but lists no passing zone
(used by the C4 counterexample). -/
def qaOnlyFails : Features.QAFiles :=
  Features.QAFiles.mk (some [("BLR-0001", false)]) none

/-- The already-complete hourly series `0, 1, ..., 10` used to refute
idempotence of `clean_hourly`. -/
def elevenSeries : List (Option ℚ) :=
  [some 0, some 1, some 2, some 3, some 4, some 5,
   some 6, some 7, some 8, some 9, some 10]

namespace Phase2

theorem maxQ_eq_max (a b : ℚ) : maxQ a b = max a b := by
  unfold maxQ; split
  · exact (max_eq_right (by assumption)).symm
  · exact (max_eq_left (le_of_not_le (by assumption))).symm

theorem minQ_eq_min (a b : ℚ) : minQ a b = min a b := by
  unfold minQ; split
  · exact (min_eq_left (by assumption)).symm
  · exact (min_eq_right (le_of_not_le (by assumption))).symm

/-- A 3-window count of missing entries can never exceed 3, so the
`clean_hourly` gap mask is identically true. -/
theorem smallGap_true (s : List (Option ℚ)) (i : ℕ) : smallGap s i = true := by
  unfold smallGap isnaRoll3
  split
  · simp
  · simp only [decide_eq_true_eq]
    calc ((s.drop (i - 2)).take 3).countP (fun x => x.isNone)
        ≤ ((s.drop (i - 2)).take 3).length := List.countP_le_length _
      _ ≤ 3 := List.length_take_le _ _

/-- Consequently `ffill().where(mask)` is just `ffill()`: every gap is
forward-filled, whatever its length. -/
theorem ffillWhere_eq_ffill (s : List (Option ℚ)) : ffillWhere s = ffill s := by
  unfold ffillWhere
  rw [List.mapIdx_eq_enum_map]
  have h : ∀ p ∈ (ffill s).enum,
      (fun p : ℕ × Option ℚ => if smallGap s p.1 then p.2 else none) p = p.2 := by
    intro p _
    simp [smallGap_true]
  calc ((ffill s).enum.map fun p => if smallGap s p.1 then p.2 else none)
      = (ffill s).enum.map Prod.snd := List.map_congr_left h
    _ = ffill s := List.enum_map_snd _

/-- Shared helper: forward fill is the identity on a series with no
missing values. -/
theorem ffillFrom_complete (s : List (Option ℚ)) (last : Option ℚ)
    (hc : ∀ x ∈ s, x ≠ none) : ffillFrom last s = s := by
  induction s generalizing last with
  | nil => rfl
  | cons x xs ih =>
    cases x with
    | none => exact absurd rfl (hc none (List.mem_cons_self _ _))
    | some y =>
      unfold ffillFrom
      rw [ih (some y) (fun z hz => hc z (List.mem_cons_of_mem _ hz))]

/-- Shared helper: clipping is the identity inside the bounds. -/
theorem clip_eq_self (lo hi x : ℚ) (hlo : lo ≤ x) (hhi : x ≤ hi) :
    clip lo hi x = x := by
  unfold clip
  rw [maxQ_eq_max, minQ_eq_min, max_eq_left hlo, min_eq_left hhi]

/-- Shared helper: a value present in the series is among its valid
values. -/
theorem mem_vals_of_mem {s : List (Option ℚ)} {y : ℚ} (h : some y ∈ s) :
    y ∈ vals s :=
  List.mem_filterMap.mpr ⟨some y, h, rfl⟩

/-- Shared helper: winsorizing preserves the absence of missing values. -/
theorem winsorize_complete {s : List (Option ℚ)}
    (hc : ∀ x ∈ s, x ≠ none) : ∀ x ∈ winsorize s, x ≠ none := by
  unfold winsorize
  split
  · exact hc
  · intro x hx
    rw [List.mem_map] at hx
    obtain ⟨y, hy, rfl⟩ := hx
    cases y with
    | none => exact absurd rfl (hc none hy)
    | some z => simp

/-- Shared helper: on a complete series, `clean_hourly`'s gap-handling step
is the identity, so cleaning is just winsorization. -/
theorem cleanMet_complete_eq (s : List (Option ℚ))
    (hc : ∀ x ∈ s, x ≠ none) : cleanMet s = winsorize s := by
  unfold cleanMet
  rw [ffillWhere_eq_ffill]
  unfold ffill
  rw [ffillFrom_complete s none hc]

end Phase2

namespace Phase3

/-- The fallback conversion never goes below zero (shared helper). -/
theorem fallbackAc_nonneg (pdc : ℚ) : 0 ≤ fallbackAc pdc := by
  unfold fallbackAc npClip
  rw [Phase2.minQ_eq_min, Phase2.maxQ_eq_max]
  refine le_min (le_max_right _ _) ?_
  norm_num [PVWATTS_INV_EFF, pdc0_w, SYSTEM_KW_DC]

/-- The fallback conversion never exceeds the ceiling (shared helper). -/
theorem fallbackAc_le_ceiling (pdc : ℚ) :
    fallbackAc pdc ≤ PVWATTS_INV_EFF * pdc0_w := by
  unfold fallbackAc npClip
  rw [Phase2.minQ_eq_min]
  exact min_le_right _ _

end Phase3

namespace Phase4

/-- Shared helper: `n_full_pass` is positive iff some full year passes. -/
theorem n_full_pass_pos_iff (rows : List ZoneYearStat) :
    0 < n_full_pass rows ↔
      ∃ st ∈ rows, is_full_year st = true ∧ qa_pass_year st = true := by
  unfold n_full_pass
  rw [List.countP_pos_iff]
  constructor
  · rintro ⟨st, hmem, hp⟩
    rw [List.mem_filter] at hmem
    exact ⟨st, hmem.1, hmem.2, hp⟩
  · rintro ⟨st, hmem, hf, hp⟩
    exact ⟨st, List.mem_filter.mpr ⟨hmem, hf⟩, hp⟩

/-- Shared helper: restricting to the full years leaves `n_full_years`
unchanged. -/
theorem n_full_years_filter (rows : List ZoneYearStat) :
    n_full_years (rows.filter is_full_year) = n_full_years rows := by
  unfold n_full_years
  rw [List.countP_filter]
  simp

/-- Shared helper: restricting to the full years leaves `n_full_pass`
unchanged. -/
theorem n_full_pass_filter (rows : List ZoneYearStat) :
    n_full_pass (rows.filter is_full_year) = n_full_pass rows := by
  unfold n_full_pass
  rw [List.filter_filter]
  simp

end Phase4

/-- C9: for every DC power input, the fallback inverter conversion returns
AC power within `[0, efficiency * rated_DC]`; the ceiling
`efficiency * rated_DC` is `0.96 * 10000 = 9600` W. -/
theorem C9_fallback_bounded (pdc : ℚ) :
    0 ≤ Phase3.fallbackAc pdc ∧ Phase3.fallbackAc pdc ≤ 9600 ∧
    Phase3.PVWATTS_INV_EFF * Phase3.pdc0_w = 9600 := by
  have hceil : Phase3.PVWATTS_INV_EFF * Phase3.pdc0_w = 9600 := by
    norm_num [Phase3.PVWATTS_INV_EFF, Phase3.pdc0_w, Phase3.SYSTEM_KW_DC]
  exact ⟨Phase3.fallbackAc_nonneg pdc, hceil ▸ Phase3.fallbackAc_le_ceiling pdc, hceil⟩

/-- C8: for every zone-year stats row, `qa_pass_year` is the conjunction of
the four boolean rules; consequently a row with day count 300 has
`ok_days = false` and `qa_pass_year = false` regardless of the other
metrics. -/
theorem C8_qa_pass_year_conj (st : Phase4.ZoneYearStat) :
    Phase4.qa_pass_year st =
      (Phase4.ok_days st && Phase4.ok_zero_days st &&
        Phase4.ok_cf st && Phase4.ok_mean st) ∧
    (st.days = 300 →
      Phase4.ok_days st = false ∧ Phase4.qa_pass_year st = false) := by
  refine ⟨rfl, fun h => ?_⟩
  have hd : Phase4.ok_days st = false := by
    simp [Phase4.ok_days, Phase4.TH_min_days, h]
  exact ⟨hd, by simp [Phase4.qa_pass_year, hd]⟩

/-- Witness for C8 at a concrete zone-year row with 300 observed days and
otherwise healthy metrics. -/
theorem C8_qa_pass_year_conj_witness :
    (Phase4.ZoneYearStat.mk 2023 300 0 (1/5) 20).days = 300 ∧
    Phase4.ok_days (Phase4.ZoneYearStat.mk 2023 300 0 (1/5) 20) = false ∧
    Phase4.qa_pass_year (Phase4.ZoneYearStat.mk 2023 300 0 (1/5) 20) = false := by
  refine ⟨rfl, ?_⟩
  have h := (C8_qa_pass_year_conj (Phase4.ZoneYearStat.mk 2023 300 0 (1/5) 20)).2 rfl
  exact h

/-- C7: the resampled day value is reported iff the day has at least 20
valid hourly readings; a day with exactly 19 valid readings yields NaN
(so `dropna` removes it — it is absent, not zero); and a date appears in
the written daily-energy table iff one of its candidate days has at least
20 valid readings. -/
theorem C7_daily_min_count (days : List (ℕ × List (Option ℚ))) (d : ℕ)
    (hours : List (Option ℚ)) :
    ((∃ v, Phase3.dailyKwh hours = some v) ↔
      20 ≤ (hours.filterMap id).length) ∧
    ((hours.filterMap id).length = 19 → Phase3.dailyKwh hours = none) ∧
    ((∃ v, (d, v) ∈ Phase3.dailyEnergyRows days) ↔
      ∃ hrs, (d, hrs) ∈ days ∧ 20 ≤ (hrs.filterMap id).length) := by
  refine ⟨?_, ?_, ?_⟩
  · unfold Phase3.dailyKwh
    split <;> simp_all
  · intro h
    unfold Phase3.dailyKwh
    simp [h]
  · unfold Phase3.dailyEnergyRows
    constructor
    · rintro ⟨v, hv⟩
      rw [List.mem_filterMap] at hv
      obtain ⟨⟨d', hrs⟩, hmem, heq⟩ := hv
      refine ⟨hrs, ?_, ?_⟩
      · rcases hkw : Phase3.dailyKwh hrs with _ | w <;> rw [hkw] at heq
        · simp at heq
        · simp at heq
          exact heq.1 ▸ hmem
      · rcases hkw : Phase3.dailyKwh hrs with _ | w <;> rw [hkw] at heq
        · simp at heq
        · unfold Phase3.dailyKwh at hkw
          by_contra hlt
          simp [if_neg] at hkw
          omega
    · rintro ⟨hrs, hmem, hlen⟩
      have hsome : Phase3.dailyKwh hrs = some ((hrs.filterMap id).sum / 1000) := by
        unfold Phase3.dailyKwh
        simp [hlen]
      exact ⟨(hrs.filterMap id).sum / 1000,
        List.mem_filterMap.mpr ⟨(d, hrs), hmem, by simp [hsome]⟩⟩

/-- C3: zone-level QA is three-valued — a zone is classified `pass` iff it
has a full year (≥ 360 days) whose `qa_pass_year` is true; the
classification only depends on the full-year rows (partial years never
count for or against); a zone whose rows are all partial is classified
`undetermined`; and `undetermined` is distinct from both `pass` and
`fail`. -/
theorem C3_zone_three_valued (rows : List Phase4.ZoneYearStat) :
    (Phase4.zoneClass rows = Phase4.ZoneQAClass.pass ↔
      ∃ st ∈ rows, Phase4.is_full_year st = true ∧ Phase4.qa_pass_year st = true) ∧
    Phase4.zoneClass rows = Phase4.zoneClass (rows.filter Phase4.is_full_year) ∧
    ((∀ st ∈ rows, Phase4.is_full_year st = false) →
      Phase4.zoneClass rows = Phase4.ZoneQAClass.undetermined) ∧
    Phase4.ZoneQAClass.undetermined ≠ Phase4.ZoneQAClass.pass ∧
    Phase4.ZoneQAClass.undetermined ≠ Phase4.ZoneQAClass.fail := by
  have hpassle : Phase4.n_full_pass rows ≤ Phase4.n_full_years rows := by
    unfold Phase4.n_full_pass Phase4.n_full_years
    calc (rows.filter Phase4.is_full_year).countP Phase4.qa_pass_year
        ≤ (rows.filter Phase4.is_full_year).length := List.countP_le_length _
      _ = rows.countP Phase4.is_full_year := (List.countP_eq_length_filter _ _).symm
  refine ⟨?_, ?_, ?_, by decide, by decide⟩
  · unfold Phase4.zoneClass
    split
    · rename_i h0
      constructor
      · intro h
        exact absurd h (by decide)
      · rintro ⟨st, hmem, hf, hp⟩
        have : 0 < Phase4.n_full_pass rows :=
          (Phase4.n_full_pass_pos_iff rows).mpr ⟨st, hmem, hf, hp⟩
        omega
    · rename_i h0
      split
      · rename_i hq
        unfold Phase4.qa_pass_zone at hq
        simp only [decide_eq_true_eq] at hq
        exact iff_of_true rfl ((Phase4.n_full_pass_pos_iff rows).mp hq)
      · rename_i hq
        unfold Phase4.qa_pass_zone at hq
        simp only [decide_eq_true_eq] at hq
        refine iff_of_false (by decide) ?_
        intro hex
        exact hq ((Phase4.n_full_pass_pos_iff rows).mpr hex)
  · unfold Phase4.zoneClass Phase4.qa_pass_zone
    rw [Phase4.n_full_years_filter, Phase4.n_full_pass_filter]
  · intro h
    have h0 : Phase4.n_full_years rows = 0 := by
      unfold Phase4.n_full_years
      rw [List.countP_eq_zero]
      intro st hst
      simp [h st hst]
    unfold Phase4.zoneClass
    rw [h0]
    rfl

/-- Witness for C3 at a zone whose single observed year is partial
(200 days): it is classified `undetermined`. -/
theorem C3_zone_three_valued_witness :
    (∀ st ∈ [Phase4.ZoneYearStat.mk 2023 200 0 0 0],
      Phase4.is_full_year st = false) ∧
    Phase4.zoneClass [Phase4.ZoneYearStat.mk 2023 200 0 0 0] =
      Phase4.ZoneQAClass.undetermined := by
  have h : ∀ st ∈ [Phase4.ZoneYearStat.mk 2023 200 0 0 0],
      Phase4.is_full_year st = false := by
    intro st hst
    rw [List.mem_singleton] at hst
    subst hst
    rfl
  exact ⟨h, (C3_zone_three_valued _).2.2.1 h⟩

/-- C10: the rolling 7-day z-score is null exactly when fewer than 3
observations are in the window or the rolling population variance (the
square of the std) is zero; and every produced value is a quotient by a
non-zero rolling std, never a division by zero. -/
theorem C10_roll7_z_null_iff (s : List ℝ) (i : ℕ) :
    (Features.roll7_z s i = none ↔
      Features.obs7 s i < 3 ∨ Features.roll7_var s i = some 0) ∧
    (∀ v, Features.roll7_z s i = some v →
      ∃ m sd, Features.roll7_mean s i = some m ∧
        Features.roll7_std s i = some sd ∧ sd ≠ 0 ∧
        v = (s.getD i 0 - m) / sd) := by
  by_cases h3 : Features.obs7 s i < 3
  · have hm : Features.roll7_mean s i = none := by
      unfold Features.roll7_mean; rw [if_pos h3]
    have hv : Features.roll7_var s i = none := by
      unfold Features.roll7_var; rw [if_pos h3]
    have hsd : Features.roll7_std s i = none := by
      unfold Features.roll7_std; rw [hv]; rfl
    have hz : Features.roll7_z s i = none := by
      unfold Features.roll7_z; rw [hm, hsd]
    refine ⟨by simp [hz, h3], ?_⟩
    intro v hv'
    rw [hz] at hv'
    exact absurd hv' (by simp)
  · have hm : Features.roll7_mean s i =
        some ((Features.window7 s i).sum / (Features.obs7 s i : ℝ)) := by
      unfold Features.roll7_mean; rw [if_neg h3]
    have hvv : Features.roll7_var s i =
        some (((Features.window7 s i).map
          (fun x => (x - (Features.window7 s i).sum / (Features.obs7 s i : ℝ)) ^ 2)).sum /
            (Features.obs7 s i : ℝ)) := by
      unfold Features.roll7_var; rw [if_neg h3]
    set V := ((Features.window7 s i).map
      (fun x => (x - (Features.window7 s i).sum / (Features.obs7 s i : ℝ)) ^ 2)).sum /
        (Features.obs7 s i : ℝ) with hVdef
    have hVnn : 0 ≤ V := by
      apply div_nonneg
      · apply List.sum_nonneg
        intro x hx
        rw [List.mem_map] at hx
        obtain ⟨y, _, rfl⟩ := hx
        positivity
      · positivity
    have hsd : Features.roll7_std s i = some (Real.sqrt V) := by
      unfold Features.roll7_std; rw [hvv]; rfl
    have hkey : Real.sqrt V = 0 ↔ V = 0 := Real.sqrt_eq_zero hVnn
    have hz : Features.roll7_z s i =
        if Real.sqrt V = 0 then none
        else some ((s.getD i 0 - (Features.window7 s i).sum / (Features.obs7 s i : ℝ)) /
          Real.sqrt V) := by
      unfold Features.roll7_z; rw [hm, hsd]
    constructor
    · rw [hz]
      split
      · rename_i h0
        simp only [true_iff]
        exact Or.inr (by rw [hvv, hkey.mp h0])
      · rename_i h0
        refine iff_of_false (by simp) ?_
        rintro (hlt | hvz)
        · exact h3 hlt
        · rw [hvv] at hvz
          simp only [Option.some.injEq] at hvz
          exact h0 (by rw [hvz, Real.sqrt_zero])
    · intro v hv'
      rw [hz] at hv'
      split at hv'
      · exact absurd hv' (by simp)
      · rename_i h0
        simp only [Option.some.injEq] at hv'
        exact ⟨_, _, hm, hsd, h0, hv'.symm⟩

/-- Witness for C10: a constant 3-observation series has rolling variance
zero at its last row and therefore a null z-score there. -/
theorem C10_roll7_z_null_iff_witness :
    Features.roll7_var [(1:ℝ), 1, 1] 2 = some 0 ∧
    Features.roll7_z [(1:ℝ), 1, 1] 2 = none := by
  have hv : Features.roll7_var [(1:ℝ), 1, 1] 2 = some 0 := by
    unfold Features.roll7_var Features.obs7 Features.window7
    norm_num
  exact ⟨hv, (C10_roll7_z_null_iff [(1:ℝ), 1, 1] 2).1.mpr (Or.inr hv)⟩

/-- C4 counterexample: the all-zones fallback (and its warning) does not
fire only when no QA result exists — here a QA summary exists, no zone
passes it, and `main` still substitutes the set of all zones. -/
theorem C4_counterexample :
    Features.usedFallback qaOnlyFails = true ∧
    qaOnlyFails.summary ≠ none ∧
    Features.zonesUsed [("BLR-0001", 0, 5)] qaOnlyFails = ["BLR-0001"] := by
  refine ⟨rfl, ?_, rfl⟩
  simp [qaOnlyFails]

/-- C4 amended: the feature engine substitutes the set of all zones (with
a warning) iff the derived set of QA-passing zones is empty — which
happens when no QA result exists, but also when QA results exist and no
zone passes; when the set is non-empty, the consumed rows are exactly the
daily rows of QA-passing zones. -/
theorem C4_fallback_iff_empty (daily : List (String × ℕ × ℚ))
    (qa : Features.QAFiles) :
    (Features.usedFallback qa = true ↔ Features.getGoodZones qa = []) ∧
    (qa.summary = none ∧ qa.peryear = none → Features.usedFallback qa = true) ∧
    (Features.getGoodZones qa ≠ [] →
      Features.zonesUsed daily qa = Features.getGoodZones qa ∧
      Features.consumedRows daily qa =
        daily.filter (fun r => r.1 ∈ Features.getGoodZones qa)) ∧
    (Features.usedFallback qa = true →
      Features.zonesUsed daily qa = Features.allZones daily) := by
  refine ⟨by simp [Features.usedFallback], ?_, ?_, ?_⟩
  · rintro ⟨h1, h2⟩
    unfold Features.usedFallback Features.getGoodZones
    rw [h1, h2]
    rfl
  · intro h
    have hz : Features.zonesUsed daily qa = Features.getGoodZones qa := by
      unfold Features.zonesUsed
      rw [if_neg h]
    exact ⟨hz, by unfold Features.consumedRows; rw [hz]⟩
  · intro h
    unfold Features.usedFallback at h
    simp only [decide_eq_true_eq] at h
    unfold Features.zonesUsed
    rw [if_pos h]

/-- Witness for C4: with no QA file at all the fallback fires, and with a
QA summary listing a passing zone the features are restricted to it. -/
theorem C4_fallback_iff_empty_witness :
    Features.usedFallback (Features.QAFiles.mk none none) = true ∧
    Features.zonesUsed [("Z2", 0, 5)]
      (Features.QAFiles.mk (some [("Z1", true)]) none) = ["Z1"] := by
  constructor
  · exact (C4_fallback_iff_empty [] (Features.QAFiles.mk none none)).2.1 ⟨rfl, rfl⟩
  · have h := (C4_fallback_iff_empty [("Z2", 0, 5)]
      (Features.QAFiles.mk (some [("Z1", true)]) none)).2.2.1 (by simp [Features.getGoodZones])
    exact h.1.trans rfl

/-- C6: over the `arctan2` range `[-180, 180]`, `to_octant` assigns exactly
one of the eight compass labels — each label's preimage is exactly its
half-open octant (`W` being the wrap-around arc `[157.5, 180] ∪
[-180, -157.5)`), the fallthrough `"NA"` is unreachable (no gap), the
characterizations are mutually exclusive (no double coverage), and the
boundary angle `22.5` maps to `"NE"`, not `"E"`. -/
theorem C6_octant_partition (a : ℚ) (_h1 : -180 ≤ a) (_h2 : a ≤ 180) :
    (Phase1.to_octant a = "E" ↔ -(45/2) ≤ a ∧ a < 45/2) ∧
    (Phase1.to_octant a = "NE" ↔ 45/2 ≤ a ∧ a < 135/2) ∧
    (Phase1.to_octant a = "N" ↔ 135/2 ≤ a ∧ a < 225/2) ∧
    (Phase1.to_octant a = "NW" ↔ 225/2 ≤ a ∧ a < 315/2) ∧
    (Phase1.to_octant a = "W" ↔ 315/2 ≤ a ∨ a < -(315/2)) ∧
    (Phase1.to_octant a = "SW" ↔ -(315/2) ≤ a ∧ a < -(225/2)) ∧
    (Phase1.to_octant a = "S" ↔ -(225/2) ≤ a ∧ a < -(135/2)) ∧
    (Phase1.to_octant a = "SE" ↔ -(135/2) ≤ a ∧ a < -(45/2)) ∧
    Phase1.to_octant a ≠ "NA" := by
  unfold Phase1.to_octant
  split_ifs with hE hNE hN hNW hW hSW hS hSE
  · refine ⟨iff_of_true rfl hE, ?_, ?_, ?_, ?_, ?_, ?_, ?_, by decide⟩
    · exact iff_of_false (by decide) (fun hx => by linarith [hE.2, hx.1])
    · exact iff_of_false (by decide) (fun hx => by linarith [hE.2, hx.1])
    · exact iff_of_false (by decide) (fun hx => by linarith [hE.2, hx.1])
    · refine iff_of_false (by decide) (fun hx => ?_)
      rcases hx with h | h
      · linarith [hE.2]
      · linarith [hE.1]
    · exact iff_of_false (by decide) (fun hx => by linarith [hE.1, hx.2])
    · exact iff_of_false (by decide) (fun hx => by linarith [hE.1, hx.2])
    · exact iff_of_false (by decide) (fun hx => by linarith [hE.1, hx.2])
  · refine ⟨iff_of_false (by decide) hE, iff_of_true rfl hNE, ?_, ?_, ?_, ?_, ?_, ?_,
      by decide⟩
    · exact iff_of_false (by decide) (fun hx => by linarith [hNE.2, hx.1])
    · exact iff_of_false (by decide) (fun hx => by linarith [hNE.2, hx.1])
    · refine iff_of_false (by decide) (fun hx => ?_)
      rcases hx with h | h
      · linarith [hNE.2]
      · linarith [hNE.1]
    · exact iff_of_false (by decide) (fun hx => by linarith [hNE.1, hx.2])
    · exact iff_of_false (by decide) (fun hx => by linarith [hNE.1, hx.2])
    · exact iff_of_false (by decide) (fun hx => by linarith [hNE.1, hx.2])
  · refine ⟨iff_of_false (by decide) hE, iff_of_false (by decide) hNE,
      iff_of_true rfl hN, ?_, ?_, ?_, ?_, ?_, by decide⟩
    · exact iff_of_false (by decide) (fun hx => by linarith [hN.2, hx.1])
    · refine iff_of_false (by decide) (fun hx => ?_)
      rcases hx with h | h
      · linarith [hN.2]
      · linarith [hN.1]
    · exact iff_of_false (by decide) (fun hx => by linarith [hN.1, hx.2])
    · exact iff_of_false (by decide) (fun hx => by linarith [hN.1, hx.2])
    · exact iff_of_false (by decide) (fun hx => by linarith [hN.1, hx.2])
  · refine ⟨iff_of_false (by decide) hE, iff_of_false (by decide) hNE,
      iff_of_false (by decide) hN, iff_of_true rfl hNW, ?_, ?_, ?_, ?_, by decide⟩
    · refine iff_of_false (by decide) (fun hx => ?_)
      rcases hx with h | h
      · linarith [hNW.2]
      · linarith [hNW.1]
    · exact iff_of_false (by decide) (fun hx => by linarith [hNW.1, hx.2])
    · exact iff_of_false (by decide) (fun hx => by linarith [hNW.1, hx.2])
    · exact iff_of_false (by decide) (fun hx => by linarith [hNW.1, hx.2])
  · refine ⟨iff_of_false (by decide) hE, iff_of_false (by decide) hNE,
      iff_of_false (by decide) hN, iff_of_false (by decide) hNW,
      iff_of_true rfl hW, ?_, ?_, ?_, by decide⟩
    · refine iff_of_false (by decide) (fun hx => ?_)
      rcases hW with h | h
      · linarith [hx.2]
      · linarith [hx.1]
    · refine iff_of_false (by decide) (fun hx => ?_)
      rcases hW with h | h
      · linarith [hx.2]
      · linarith [hx.1]
    · refine iff_of_false (by decide) (fun hx => ?_)
      rcases hW with h | h
      · linarith [hx.2]
      · linarith [hx.1]
  · refine ⟨iff_of_false (by decide) hE, iff_of_false (by decide) hNE,
      iff_of_false (by decide) hN, iff_of_false (by decide) hNW,
      iff_of_false (by decide) hW, iff_of_true rfl hSW, ?_, ?_, by decide⟩
    · exact iff_of_false (by decide) (fun hx => by linarith [hSW.2, hx.1])
    · exact iff_of_false (by decide) (fun hx => by linarith [hSW.2, hx.1])
  · refine ⟨iff_of_false (by decide) hE, iff_of_false (by decide) hNE,
      iff_of_false (by decide) hN, iff_of_false (by decide) hNW,
      iff_of_false (by decide) hW, iff_of_false (by decide) hSW,
      iff_of_true rfl hS, ?_, by decide⟩
    exact iff_of_false (by decide) (fun hx => by linarith [hS.2, hx.1])
  · exact ⟨iff_of_false (by decide) hE, iff_of_false (by decide) hNE,
      iff_of_false (by decide) hN, iff_of_false (by decide) hNW,
      iff_of_false (by decide) hW, iff_of_false (by decide) hSW,
      iff_of_false (by decide) hS, iff_of_true rfl hSE, by decide⟩
  · exfalso
    rcases lt_or_le a (-(315/2) : ℚ) with h | hA
    · exact hW (Or.inr h)
    rcases lt_or_le a (-(225/2) : ℚ) with h | hB
    · exact hSW ⟨hA, h⟩
    rcases lt_or_le a (-(135/2) : ℚ) with h | hC
    · exact hS ⟨hB, h⟩
    rcases lt_or_le a (-(45/2) : ℚ) with h | hD
    · exact hSE ⟨hC, h⟩
    rcases lt_or_le a (45/2 : ℚ) with h | hF
    · exact hE ⟨hD, h⟩
    rcases lt_or_le a (135/2 : ℚ) with h | hG
    · exact hNE ⟨hF, h⟩
    rcases lt_or_le a (225/2 : ℚ) with h | hH
    · exact hN ⟨hG, h⟩
    rcases lt_or_le a (315/2 : ℚ) with h | hI
    · exact hNW ⟨hH, h⟩
    exact hW (Or.inl hI)

/-- Witness for C6: the boundary angle `22.5` lies in `[-180, 180]` and is
labelled `"NE"`. -/
theorem C6_octant_partition_witness :
    (-180 ≤ (45/2 : ℚ)) ∧ ((45/2 : ℚ) ≤ 180) ∧
    Phase1.to_octant (45/2) = "NE" := by
  refine ⟨by norm_num, by norm_num, ?_⟩
  exact (C6_octant_partition (45/2) (by norm_num) (by norm_num)).2.1.mpr
    ⟨le_refl _, by norm_num⟩

/-- Witness for C7: a day with 19 valid and 5 missing hourly readings is
not reported. -/
theorem C7_daily_min_count_witness :
    ((List.replicate 19 (some (1:ℚ)) ++ List.replicate 5 none).filterMap id).length = 19 ∧
    Phase3.dailyKwh (List.replicate 19 (some (1:ℚ)) ++ List.replicate 5 none) = none := by
  have h19 : ((List.replicate 19 (some (1:ℚ)) ++ List.replicate 5 none).filterMap id).length = 19 := by
    simp
  exact ⟨h19, (C7_daily_min_count [] 0 _).2.1 h19⟩

/-- C1 (evaluation at the failing input): on the hourly irradiance series
`[1, NaN, NaN, NaN, NaN, 2]`, whose missing run has length 4 > 3,
`clean_hourly` forward-fills the entire gap — the mask
`df.isna().rolling(3).sum().fillna(0) <= 3` is identically true (a 3-wide
window holds at most 3 missing values), so `ffill().where(mask)` fills
every gap and no null remains, where the spec (and the code's own comment
`small gaps (<=3h) ffill`) requires runs longer than 3 hours to stay
null. -/
theorem C1_long_gap_forward_filled :
    Phase2.cleanGhi [some 1, none, none, none, none, some 2] =
      [some 1, some 1, some 1, some 1, some 1, some (39/20)] ∧
    (Phase2.cleanGhi [some 1, none, none, none, none, some 2]).countP
      (fun x => x.isNone) = 0 := by
  have h : Phase2.cleanGhi [some 1, none, none, none, none, some 2] =
      [some 1, some 1, some 1, some 1, some 1, some (39/20)] := by
    norm_num [Phase2.cleanGhi, Phase2.winsorize, Phase2.ffillWhere_eq_ffill,
      Phase2.ffill, Phase2.ffillFrom, Phase2.vals, Phase2.quantileQ, Phase2.sortQ,
      Phase2.insertSorted, Phase2.floorNat, Phase2.clip, Phase2.maxQ, Phase2.minQ]
    simp
    norm_num
  exact ⟨h, by rw [h]; rfl⟩

/-- C5 counterexample: at the nominal operating point `pdc = 5000` W
(half rated power), the preferred PVWatts inverter model and the
constant-efficiency fallback return different AC power
(`4800 * 9659/9637 ≈ 4810.96` W vs `4800` W). -/
theorem C5_counterexample :
    Phase3.pvwattsInverter 5000 ≠ Phase3.fallbackAc 5000 := by
  norm_num [Phase3.pvwattsInverter, Phase3.fallbackAc, Phase3.npClip,
    Phase3.PVWATTS_INV_EFF, Phase3.pdc0_w, Phase3.SYSTEM_KW_DC,
    Phase2.maxQ, Phase2.minQ]

/-- C5 amended: the preferred PVWatts inverter conversion and the
constant-efficiency fallback agree exactly at rated DC power, and both are
bounded by the conversion ceiling `efficiency * rated_DC`; away from rated
power the preferred model's load-dependent efficiency differs from the
constant efficiency. -/
theorem C5_paths_agree_at_rated (pdc : ℚ) :
    (pdc = Phase3.pdc0_w →
      Phase3.pvwattsInverter pdc = Phase3.fallbackAc pdc) ∧
    Phase3.pvwattsInverter pdc ≤ Phase3.PVWATTS_INV_EFF * Phase3.pdc0_w ∧
    Phase3.fallbackAc pdc ≤ Phase3.PVWATTS_INV_EFF * Phase3.pdc0_w := by
  refine ⟨?_, ?_, Phase3.fallbackAc_le_ceiling pdc⟩
  · rintro rfl
    norm_num [Phase3.pvwattsInverter, Phase3.fallbackAc, Phase3.npClip,
      Phase3.PVWATTS_INV_EFF, Phase3.pdc0_w, Phase3.SYSTEM_KW_DC,
      Phase2.maxQ, Phase2.minQ]
  · simp only [Phase3.pvwattsInverter]
    rw [Phase2.maxQ_eq_max, Phase2.minQ_eq_min]
    refine max_le ?_ (min_le_left _ _)
    norm_num [Phase3.PVWATTS_INV_EFF, Phase3.pdc0_w, Phase3.SYSTEM_KW_DC]

/-- Witness for C5 at rated power: both conversion paths coincide there. -/
theorem C5_paths_agree_at_rated_witness :
    Phase3.pvwattsInverter Phase3.pdc0_w = Phase3.fallbackAc Phase3.pdc0_w :=
  (C5_paths_agree_at_rated Phase3.pdc0_w).1 rfl

/-- C2 counterexample: cleaning is not idempotent.  On the series
`0..10`, the first cleaning winsorizes to `[0.1, 1, ..., 9, 9.9]`; the
second cleaning winsorizes again to `[0.19, 1, ..., 9, 9.81]`, because the
1st/99th linear-interpolation percentiles of the already-winsorized series
have moved inward — re-cleaning drifts. -/
theorem C2_counterexample :
    Phase2.cleanMet (Phase2.cleanMet elevenSeries) ≠
      Phase2.cleanMet elevenSeries := by
  have h1 : Phase2.cleanMet elevenSeries =
      [some (1/10), some 1, some 2, some 3, some 4, some 5,
       some 6, some 7, some 8, some 9, some (99/10)] := by
    norm_num [elevenSeries, Phase2.cleanMet, Phase2.winsorize,
      Phase2.ffillWhere_eq_ffill, Phase2.ffill, Phase2.ffillFrom, Phase2.vals,
      Phase2.quantileQ, Phase2.sortQ, Phase2.insertSorted, Phase2.floorNat,
      Phase2.clip, Phase2.maxQ, Phase2.minQ]
    simp
    norm_num
  have h2 : Phase2.cleanMet
      [some (1/10), some 1, some 2, some 3, some 4, some 5,
       some 6, some 7, some 8, some 9, some (99/10)] =
      [some (19/100), some 1, some 2, some 3, some 4, some 5,
       some 6, some 7, some 8, some 9, some (981/100)] := by
    norm_num [Phase2.cleanMet, Phase2.winsorize,
      Phase2.ffillWhere_eq_ffill, Phase2.ffill, Phase2.ffillFrom, Phase2.vals,
      Phase2.quantileQ, Phase2.sortQ, Phase2.insertSorted, Phase2.floorNat,
      Phase2.clip, Phase2.maxQ, Phase2.minQ]
    simp
    norm_num
  rw [h1, h2]
  intro h
  have := List.head_eq_of_cons_eq h
  norm_num at this

/-- C2 amended: cleaning is not idempotent in general (re-winsorization
drifts — see the counterexample); re-cleaning yields the same series when
the cleaned series' own 1st/99th linear-interpolation percentiles already
bound all of its values (e.g. a constant series, whose percentiles
coincide with its minimum and maximum): for every complete hourly series
whose cleaned values are bounded by the cleaned series' percentiles,
re-cleaning is the identity. -/
theorem C2_reclean_fixed_when_bounded (s : List (Option ℚ))
    (hc : ∀ x ∈ s, x ≠ none)
    (hb : ∀ y ∈ Phase2.vals (Phase2.cleanMet s),
      Phase2.quantileQ (1/100) (Phase2.vals (Phase2.cleanMet s)) ≤ y ∧
      y ≤ Phase2.quantileQ (99/100) (Phase2.vals (Phase2.cleanMet s))) :
    Phase2.cleanMet (Phase2.cleanMet s) = Phase2.cleanMet s := by
  have hce : ∀ x ∈ Phase2.cleanMet s, x ≠ none := by
    rw [Phase2.cleanMet_complete_eq s hc]
    exact Phase2.winsorize_complete hc
  rw [Phase2.cleanMet_complete_eq (Phase2.cleanMet s) hce]
  simp only [Phase2.winsorize]
  split
  · rfl
  · refine (List.map_congr_left ?_).trans (List.map_id _)
    intro x hx
    cases x with
    | none => exact absurd rfl (hce none hx)
    | some y =>
      have hy := hb y (Phase2.mem_vals_of_mem hx)
      simp only [Option.map_some', id_eq]
      rw [Phase2.clip_eq_self _ _ _ hy.1 hy.2]

/-- Witness for C2 (amended) on the constant series `[5, 5, 5]`: it is
complete, its cleaned percentiles bound all its values, and re-cleaning it
is the identity. -/
theorem C2_reclean_fixed_when_bounded_witness :
    (∀ x ∈ [some (5:ℚ), some 5, some 5], x ≠ none) ∧
    Phase2.cleanMet (Phase2.cleanMet [some (5:ℚ), some 5, some 5]) =
      Phase2.cleanMet [some (5:ℚ), some 5, some 5] := by
  have hc : ∀ x ∈ [some (5:ℚ), some 5, some 5], x ≠ none := by simp
  have hmet : Phase2.cleanMet [some (5:ℚ), some 5, some 5] =
      [some (5:ℚ), some 5, some 5] := by
    norm_num [Phase2.cleanMet, Phase2.winsorize, Phase2.ffillWhere_eq_ffill,
      Phase2.ffill, Phase2.ffillFrom, Phase2.vals, Phase2.quantileQ,
      Phase2.sortQ, Phase2.insertSorted, Phase2.floorNat, Phase2.clip,
      Phase2.maxQ, Phase2.minQ]
    try simp
    try norm_num
  have hvals : Phase2.vals [some (5:ℚ), some 5, some 5] = [5, 5, 5] := rfl
  have hq1 : Phase2.quantileQ (1/100) [(5:ℚ), 5, 5] = 5 := by
    norm_num [Phase2.quantileQ, Phase2.sortQ, Phase2.insertSorted,
      Phase2.floorNat]
  have hq99 : Phase2.quantileQ (99/100) [(5:ℚ), 5, 5] = 5 := by
    norm_num [Phase2.quantileQ, Phase2.sortQ, Phase2.insertSorted,
      Phase2.floorNat]
    try simp
    try norm_num
  have hb : ∀ y ∈ Phase2.vals (Phase2.cleanMet [some (5:ℚ), some 5, some 5]),
      Phase2.quantileQ (1/100)
        (Phase2.vals (Phase2.cleanMet [some (5:ℚ), some 5, some 5])) ≤ y ∧
      y ≤ Phase2.quantileQ (99/100)
        (Phase2.vals (Phase2.cleanMet [some (5:ℚ), some 5, some 5])) := by
    rw [hmet, hvals, hq1, hq99]
    intro y hy
    simp only [List.mem_cons, List.not_mem_nil, or_false, or_self] at hy
    subst hy
    exact ⟨le_refl _, le_refl _⟩
  exact ⟨hc, C2_reclean_fixed_when_bounded _ hc hb⟩
